import Mathlib

/-!
Shallow embedding of the video-documentation service in src/main.py.

The handler upload_video is modelled as a pure function from a request
environment (the multipart field, the filename, whether the local save
succeeds, the MIME sniffing result, and the four remote HTTP responses)
to an HTTP response together with an effects trace (temporary-file
lifecycle, number of status polls, number of outbound network calls).

JSON response bodies are modelled by an inductive JSON type, and the
Python dictionary/list operations used by the handler (dict.get,
indexing, iteration, truthiness, string concatenation) are modelled with
their Python exception behaviour: an operation on a value of the wrong
shape produces an error, which the handler catches exactly where the
source does.
-/

/-- JSON values, the shape of decoded response bodies. -/
inductive JSON where
  | null
  | bool (b : Bool)
  | num (n : Int)
  | str (s : String)
  | arr (elems : List JSON)
  | obj (fields : List (String × JSON))

/-- Python exception classes that the handler distinguishes:
requests.RequestException (caught at main.py line 148) versus every
other exception (ValueError, TimeoutError, AttributeError, TypeError,
caught at line 151). -/
inductive PyErr where
  | requestError (detail : String)
  | otherError (detail : String)
deriving DecidableEq

/-- Python truthiness of a JSON value, as used by the source in
`if not upload_url`, `if candidates`, `if not file_uri` and
`if not generated_text`. -/
def JSON.truthy : JSON → Bool
  | .null => false
  | .bool b => b
  | .num n => n != 0
  | .str s => s != ""
  | .arr elems => !elems.isEmpty
  | .obj fields => !fields.isEmpty

/-- First binding of a key in an association list, as in a Python dict. -/
def lookupJ : List (String × JSON) → String → Option JSON
  | [], _ => none
  | (k, v) :: rest, key => if k = key then some v else lookupJ rest key

/-- Python `d.get(key, default)`: succeeds on a dict, raises
AttributeError on anything else. -/
def pyGetJ (j : JSON) (key : String) (dflt : JSON) : Except PyErr JSON :=
  match j with
  | .obj fields => .ok ((lookupJ fields key).getD dflt)
  | _ => .error (.otherError "AttributeError")

/-- Python `x[0]`: head of a list, one-character string of a nonempty
string, IndexError on empty sequences, TypeError or KeyError otherwise. -/
def pyIndex0 : JSON → Except PyErr JSON
  | .arr [] => .error (.otherError "IndexError")
  | .arr (x :: _) => .ok x
  | .str s => if s = "" then .error (.otherError "IndexError") else .ok (.str (s.take 1))
  | _ => .error (.otherError "TypeError")

/-- Python `for x in xs`: lists iterate elements, strings iterate
characters, dicts iterate keys, everything else raises TypeError. -/
def pyIter : JSON → Except PyErr (List JSON)
  | .arr elems => .ok elems
  | .str s => .ok (s.toList.map fun c => JSON.str (String.mk [c]))
  | .obj fields => .ok (fields.map fun kv => JSON.str kv.1)
  | _ => .error (.otherError "TypeError")

/-- An HTTP response from the vendor API: status code, the
x-goog-upload-url header when present, and the decoded JSON body. -/
structure HTTPResp where
  status : Nat
  uploadUrlHeader : Option String
  body : JSON

/-- requests `raise_for_status` raises for client and server error
codes, i.e. statuses in [400, 600). -/
def httpFailed (r : HTTPResp) : Bool :=
  decide (400 ≤ r.status ∧ r.status < 600)

/-- The environment of one request: the request itself, the outcome of
the local save, the filetype.guess result on the saved bytes, and the
responses the vendor returns to the four kinds of outbound call.
statusResp i is the response to the i-th status poll (0-based). -/
structure Env where
  hasVideo : Bool
  filename : String
  saveOk : Bool
  guessMime : Option String
  fileSize : Nat
  startResp : HTTPResp
  uploadResp : HTTPResp
  statusResp : Nat → HTTPResp
  genResp : HTTPResp

/-- main.py lines 23-25: `kind = filetype.guess(path); return kind.mime
if kind else "application/octet-stream"`. The filetype.guess call is
the oracle argument: some mime when a signature matched, none when not. -/
def get_mime_type (guessResult : Option String) : String :=
  match guessResult with
  | some mime => mime
  | none => "application/octet-stream"

/-- Step 1 (main.py lines 66-70): POST to the upload start URL,
raise_for_status, read the x-goog-upload-url header, raise ValueError
when it is absent or empty. -/
def startStep (env : Env) : Except PyErr String :=
  if httpFailed env.startResp then .error (.requestError "start HTTP error")
  else
    match env.startResp.uploadUrlHeader with
    | none => .error (.otherError "No upload URL returned")
    | some u => if u = "" then .error (.otherError "No upload URL returned") else .ok u

/-- Step 2 (main.py lines 78-87): POST the file bytes, raise_for_status,
then `file_uri = resp.json().get("file", dict()).get("uri", "")`;
raise ValueError when file_uri is falsy; `file_uri.split("/")[-1]`
needs a string. Returns the file URI. -/
def uploadStep (env : Env) : Except PyErr String :=
  if httpFailed env.uploadResp then .error (.requestError "upload HTTP error")
  else
    match env.uploadResp.body with
    | .obj fields =>
      match (lookupJ fields "file").getD (.obj []) with
      | .obj fileFields =>
        let uriJ := (lookupJ fileFields "uri").getD (.str "")
        if uriJ.truthy then
          match uriJ with
          | .str s => .ok s
          | _ => .error (.otherError "AttributeError")
        else .error (.otherError "No file URI returned")
      | _ => .error (.otherError "AttributeError")
    | _ => .error (.otherError "AttributeError")

/-- Reading the state field of a status-poll body:
`resp.json().get("state", "")`, AttributeError when the body is not a
dict. -/
def getStateJ (body : JSON) : Except PyErr JSON :=
  match body with
  | .obj fields => .ok ((lookupJ fields "state").getD (.str ""))
  | _ => .error (.otherError "AttributeError")

/-- The branch the body of the polling loop takes on one response:
raise_for_status raises (line 94), the body is not a dict so .get
raises (line 95), the state equals ACTIVE (line 96), the state equals
FAILED (line 98), or anything else, where the loop sleeps and
continues (line 100). A non-string state value compares unequal to
both ACTIVE and FAILED in Python, hence continues. -/
inductive PollObs where
  | httpErr
  | parseErr
  | active
  | failed
  | other
deriving DecidableEq

/-- Classifier of the branch structure of main.py lines 93-100 on one
status response. -/
def pollObserve (r : HTTPResp) : PollObs :=
  if httpFailed r then .httpErr
  else
    match getStateJ r.body with
    | .error _ => .parseErr
    | .ok st =>
      match st with
      | .str s =>
        if s = "ACTIVE" then .active
        else if s = "FAILED" then .failed
        else .other
      | _ => .other

/-- Step 3 (main.py lines 91-102): `for attempt in range(60)`, each
iteration issues one GET and takes the branch pollObserve describes:
break on ACTIVE, raise ValueError on FAILED, propagate the HTTP or
attribute error, or sleep and continue; the for-else branch raises
TimeoutError when the range is exhausted without a break. Arguments:
remaining attempts, index of the next poll. Returns the number of
status queries issued and the outcome. -/
def pollLoop (env : Env) : Nat → Nat → Nat × Except PyErr Unit
  | 0, _ => (0, .error (.otherError "File processing timed out"))
  | n + 1, i =>
    match pollObserve (env.statusResp i) with
    | .httpErr => (1, .error (.requestError "status HTTP error"))
    | .parseErr => (1, .error (.otherError "AttributeError"))
    | .active => (1, .ok ())
    | .failed => (1, .error (.otherError "File processing failed"))
    | .other => ((pollLoop env n (i + 1)).1 + 1, (pollLoop env n (i + 1)).2)

/-- The attempt cap of the polling loop (main.py line 91). -/
def max_attempts : Nat := 60

/-- Step 4, response check (main.py lines 129-130): raise_for_status on
the generation call; on success the decoded body. -/
def genStep (env : Env) : Except PyErr JSON :=
  if httpFailed env.genResp then .error (.requestError "generate HTTP error")
  else .ok env.genResp.body

/-- The loop body of main.py lines 138-139: `generated_text +=
part.get("text", "")` over the parts, with the Python exceptions of
`.get` on a non-dict and of concatenating a non-string. -/
def extractParts (acc : String) : List JSON → Except PyErr String
  | [] => .ok acc
  | part :: rest =>
    match pyGetJ part "text" (.str "") with
    | .error e => .error e
    | .ok t =>
      match t with
      | .str s => extractParts (acc ++ s) rest
      | _ => .error (.otherError "TypeError")

/-- main.py lines 135-139: descend into
`gen_data.get("candidates", [])`, and when that is truthy into
`candidates[0].get("content", dict()).get("parts", [])`, concatenating
the text of every part; every Python exception of the descent is an
error value. -/
def extractText (gen_data : JSON) : Except PyErr String :=
  match pyGetJ gen_data "candidates" (.arr []) with
  | .error e => .error e
  | .ok candidates =>
    if candidates.truthy then
      match pyIndex0 candidates with
      | .error e => .error e
      | .ok c0 =>
        match pyGetJ c0 "content" (.obj []) with
        | .error e => .error e
        | .ok content =>
          match pyGetJ content "parts" (.arr []) with
          | .error e => .error e
          | .ok parts =>
            match pyIter parts with
            | .error e => .error e
            | .ok items => extractParts "" items
    else .ok ""

/-- main.py lines 133-144: the try block around the descent; an empty
result becomes the placeholder, an exception becomes the fixed failure
string. -/
def parseGenerated (gen_data : JSON) : String :=
  match extractText gen_data with
  | .ok t => if t = "" then "No content generated" else t
  | .error _ => "Failed to parse generated content"

/-- The try block of the handler after the temporary file is saved
(main.py lines 50-146): start, upload, poll, generate, parse. Returns
the result (generated text or the first exception), the number of
status queries, and the number of outbound network calls. The MIME
type, byte length and display name only feed outbound headers and the
generation payload, which the response oracle abstracts. -/
def runTry (env : Env) : Except PyErr String × Nat × Nat :=
  match startStep env with
  | .error e => (.error e, 0, 1)
  | .ok _uploadUrl =>
    match uploadStep env with
    | .error e => (.error e, 0, 2)
    | .ok _fileUri =>
      match pollLoop env max_attempts 0 with
      | (q, .error e) => (.error e, q, 2 + q)
      | (q, .ok ()) =>
        match genStep env with
        | .error e => (.error e, q, 3 + q)
        | .ok gen_data => (.ok (parseGenerated gen_data), q, 3 + q)

/-- Body of the HTTP response the handler builds: the 200 body with
generated_documentation, the 400 body with an error key, or a 500 body
with error and detail keys. -/
inductive RespBody where
  | doc (text : String)
  | err (msg : String)
  | errDetail (category : String) (detail : String)
deriving DecidableEq

/-- Value of the error key of a response body; empty for a success
body. -/
def RespBody.category : RespBody → String
  | .doc _ => ""
  | .err msg => msg
  | .errDetail c _ => c

/-- Whether the JSON body of the response carries an error key. -/
def RespBody.hasErrorKey : RespBody → Bool
  | .doc _ => false
  | .err _ => true
  | .errDetail _ _ => true

/-- Observable local and outbound effects of one request: whether a
temporary file was created, whether it still exists when the handler
returns, how often it was unlinked, and how many status queries and
outbound network calls were issued. -/
structure Trace where
  tempCreated : Bool
  tempExistsAtEnd : Bool
  unlinkCount : Nat
  statusQueries : Nat
  networkCalls : Nat
deriving DecidableEq

/-- The full observable outcome of one request. -/
structure HandlerOut where
  status : Nat
  body : RespBody
  trace : Trace
deriving DecidableEq

/-- Trace of a request rejected before any effect. -/
def emptyTrace : Trace :=
  { tempCreated := false, tempExistsAtEnd := false, unlinkCount := 0,
    statusQueries := 0, networkCalls := 0 }

/-- The two except branches of main.py lines 148-153, plus the finally
block of lines 154-156 for the case where the save succeeded: the
temporary path was assigned, so it is unlinked exactly once. -/
def assemble : Except PyErr String × Nat × Nat → HandlerOut
  | (.ok text, q, calls) =>
    { status := 200, body := .doc text,
      trace := { tempCreated := true, tempExistsAtEnd := false, unlinkCount := 1,
                 statusQueries := q, networkCalls := calls } }
  | (.error (.requestError d), q, calls) =>
    { status := 500, body := .errDetail "Upload or generation failed" d,
      trace := { tempCreated := true, tempExistsAtEnd := false, unlinkCount := 1,
                 statusQueries := q, networkCalls := calls } }
  | (.error (.otherError d), q, calls) =>
    { status := 500, body := .errDetail "Internal server error" d,
      trace := { tempCreated := true, tempExistsAtEnd := false, unlinkCount := 1,
                 statusQueries := q, networkCalls := calls } }

/-- main.py lines 35-156, the handler for POST /upload-video.
Validation (lines 37-41) rejects with 400 before any effect. Then
NamedTemporaryFile creates the temporary file; when video.save raises,
the exception reaches the generic except branch while temp_filepath is
still None, so the finally block does not unlink the file and it
survives the request. When the save succeeds, temp_filepath is
assigned, the try block runs, and the finally block unlinks the file
exactly once on every exit path. -/
def upload_video (env : Env) : HandlerOut :=
  if env.hasVideo = false then
    { status := 400, body := .err "No video file part", trace := emptyTrace }
  else if env.filename = "" then
    { status := 400, body := .err "No selected file", trace := emptyTrace }
  else if env.saveOk = false then
    { status := 500, body := .errDetail "Internal server error" "save failed",
      trace := { tempCreated := true, tempExistsAtEnd := true, unlinkCount := 0,
                 statusQueries := 0, networkCalls := 0 } }
  else
    assemble (runTry env)

/-- Successful status response with state ACTIVE. -/
def respActive : HTTPResp :=
  { status := 200, uploadUrlHeader := none, body := .obj [("state", .str "ACTIVE")] }

/-- Successful status response with state PROCESSING, a state that is
neither ACTIVE nor FAILED. -/
def respProcessing : HTTPResp :=
  { status := 200, uploadUrlHeader := none, body := .obj [("state", .str "PROCESSING")] }

/-- Successful status response with state FAILED. -/
def respFailed : HTTPResp :=
  { status := 200, uploadUrlHeader := none, body := .obj [("state", .str "FAILED")] }

/-- Successful initiation response carrying the continuation URL X. -/
def respStartOk : HTTPResp :=
  { status := 200, uploadUrlHeader := some "X", body := .obj [] }

/-- Successful upload response carrying the file URI files/abc123. -/
def respUploadOk : HTTPResp :=
  { status := 200, uploadUrlHeader := none,
    body := .obj [("file", .obj [("uri", .str "files/abc123")])] }

/-- Successful generation response with one candidate whose single part
has text "# Doc". -/
def respGenDoc : HTTPResp :=
  { status := 200, uploadUrlHeader := none,
    body := .obj [("candidates", .arr
      [.obj [("content", .obj [("parts", .arr [.obj [("text", .str "# Doc")]])])]])] }

/-- The fully successful run of the worked example: a 10-byte file
named a.txt with no recognizable signature, every remote call
succeeding, the first poll already ACTIVE. -/
def envBase : Env :=
  { hasVideo := true, filename := "a.txt", saveOk := true, guessMime := none,
    fileSize := 10, startResp := respStartOk, uploadResp := respUploadOk,
    statusResp := fun _ => respActive, genResp := respGenDoc }

/-- The worked example run of the spec, identical to the base run. -/
def envC8 : Env := envBase

/-- A valid request whose save to the temporary file raises. -/
def envSaveFail : Env := { envBase with saveOk := false }

/-- A run whose initiation response is 200 but carries no
x-goog-upload-url header. -/
def envNoUploadUrl : Env :=
  { envBase with startResp := { status := 200, uploadUrlHeader := none, body := .obj [] } }

/-- A run whose initiation call returns HTTP 503. -/
def envStartHttpError : Env :=
  { envBase with startResp := { status := 503, uploadUrlHeader := none, body := .obj [] } }

/-- A run in which every status poll reports PROCESSING. -/
def envPollTimeout : Env :=
  { envBase with statusResp := fun _ => respProcessing }

/-- A run whose first status poll reports FAILED. -/
def envPollFailed : Env :=
  { envBase with statusResp := fun _ => respFailed }

/-- A request with no video part at all. -/
def envNoVideo : Env := { envBase with hasVideo := false }

/-- A request whose video part has the empty-string filename. -/
def envEmptyFilename : Env := { envBase with filename := "" }

/-- A run whose generation response has an empty candidates list. -/
def envGenEmpty : Env :=
  { envBase with genResp :=
      { status := 200, uploadUrlHeader := none, body := .obj [("candidates", .arr [])] } }

/-- A run whose generation response body is a JSON array, on which the
dict .get of the parsing code raises AttributeError. -/
def envGenBad : Env :=
  { envBase with genResp :=
      { status := 200, uploadUrlHeader := none, body := .arr [.str "oops"] } }

/-- When a poll observes a continuing state, one query is issued and
the loop recurses on the next attempt. -/
theorem pollLoop_succ_other (env : Env) (n i : Nat)
    (h : pollObserve (env.statusResp i) = .other) :
    pollLoop env (n + 1) i =
      ((pollLoop env n (i + 1)).1 + 1, (pollLoop env n (i + 1)).2) := by
  simp [pollLoop, h]

/-- When every remaining poll observes a continuing state, the loop
consumes all attempts and ends in the timeout error. -/
theorem pollLoop_all_other (env : Env) (n : Nat) :
    ∀ i, (∀ j, j < n → pollObserve (env.statusResp (i + j)) = .other) →
      pollLoop env n i = (n, .error (.otherError "File processing timed out")) := by
  induction n with
  | zero => intro i _; rfl
  | succ m ih =>
    intro i h
    have h0 : pollObserve (env.statusResp i) = .other := by
      have := h 0 m.succ_pos
      simpa using this
    have hrec := ih (i + 1) (fun j hj => by
      have := h (j + 1) (Nat.succ_lt_succ hj)
      have e : i + (j + 1) = i + 1 + j := by omega
      rwa [e] at this)
    rw [pollLoop_succ_other env m i h0, hrec]

/-- When the first FAILED observation is at offset k, the loop issues
exactly k + 1 queries and ends in the processing-failed error. -/
theorem pollLoop_first_failed (env : Env) :
    ∀ k n i, k < n →
      pollObserve (env.statusResp (i + k)) = .failed →
      (∀ j, j < k → pollObserve (env.statusResp (i + j)) = .other) →
      pollLoop env n i = (k + 1, .error (.otherError "File processing failed")) := by
  intro k
  induction k with
  | zero =>
    intro n i hn hfail _
    obtain ⟨m, rfl⟩ : ∃ m, n = m + 1 := ⟨n - 1, by omega⟩
    have h0 : pollObserve (env.statusResp i) = .failed := by simpa using hfail
    simp [pollLoop, h0]
  | succ k ih =>
    intro n i hn hfail hbefore
    obtain ⟨m, rfl⟩ : ∃ m, n = m + 1 := ⟨n - 1, by omega⟩
    have h0 : pollObserve (env.statusResp i) = .other := by
      have := hbefore 0 k.succ_pos
      simpa using this
    have hrec := ih m (i + 1) (by omega)
      (by
        have e : i + (k + 1) = i + 1 + k := by omega
        rwa [e] at hfail)
      (fun j hj => by
        have := hbefore (j + 1) (Nat.succ_lt_succ hj)
        have e : i + (j + 1) = i + 1 + j := by omega
        rwa [e] at this)
    rw [pollLoop_succ_other env m i h0, hrec]

/-- Conversely, a timeout outcome can only arise by consuming every
attempt with a continuing observation: neither ACTIVE nor FAILED (nor
an HTTP or parse error) was ever observed. -/
theorem pollLoop_timeout_inv (env : Env) :
    ∀ n i, (pollLoop env n i).2 = .error (.otherError "File processing timed out") →
      (pollLoop env n i).1 = n ∧
      ∀ j, j < n → pollObserve (env.statusResp (i + j)) = .other := by
  intro n
  induction n with
  | zero => intro i _; exact ⟨rfl, fun j hj => absurd hj (Nat.not_lt_zero j)⟩
  | succ m ih =>
    intro i h
    cases hobs : pollObserve (env.statusResp i) with
    | httpErr => simp [pollLoop, hobs] at h
    | parseErr => simp [pollLoop, hobs] at h
    | active => simp [pollLoop, hobs] at h
    | failed => simp [pollLoop, hobs] at h
    | other =>
      rw [pollLoop_succ_other env m i hobs] at h
      obtain ⟨hq, hrest⟩ := ih (i + 1) h
      constructor
      · rw [pollLoop_succ_other env m i hobs, hq]
      · intro j hj
        cases j with
        | zero => simpa using hobs
        | succ j =>
          have e : i + (j + 1) = i + 1 + j := by omega
          rw [e]
          exact hrest j (by omega)

/-- A request that passes validation and whose save succeeds produces
the assembly of the try block result. -/
theorem upload_video_validated (env : Env) (hv : env.hasVideo = true)
    (hf : env.filename ≠ "") (hs : env.saveOk = true) :
    upload_video env = assemble (runTry env) := by
  simp [upload_video, hv, hf, hs]

/-- When the start and upload steps succeed and the polling loop ends in
an error, the try block propagates that error after 2 + q calls. -/
theorem runTry_poll_error (env : Env) (u uri : String) (q : Nat) (e : PyErr)
    (h1 : startStep env = .ok u) (h2 : uploadStep env = .ok uri)
    (hq : pollLoop env max_attempts 0 = (q, .error e)) :
    runTry env = (.error e, q, 2 + q) := by
  simp [runTry, h1, h2, hq]

/-- When start, upload and polling succeed and the generation call has a
successful status, the try block returns the parsed generation body. -/
theorem runTry_gen_ok (env : Env) (u uri : String) (q : Nat)
    (h1 : startStep env = .ok u) (h2 : uploadStep env = .ok uri)
    (hq : pollLoop env max_attempts 0 = (q, .ok ()))
    (hg : httpFailed env.genResp = false) :
    runTry env = (.ok (parseGenerated env.genResp.body), q, 3 + q) := by
  simp [runTry, genStep, h1, h2, hq, hg]

/-- An HTTP-failure observation at a poll means raise_for_status fired:
the status of that response was in the error range. -/
theorem httpFailed_of_pollObserve_httpErr (r : HTTPResp)
    (h : pollObserve r = .httpErr) : httpFailed r = true := by
  cases hb : httpFailed r with
  | true => rfl
  | false =>
    exfalso
    cases hg : getStateJ r.body with
    | error e => simp [pollObserve, hb, hg] at h
    | ok st =>
      cases st with
      | str s =>
        by_cases ha : s = "ACTIVE"
        · simp [pollObserve, hb, hg, ha] at h
        · by_cases hff : s = "FAILED" <;> simp [pollObserve, hb, hg, ha, hff] at h
      | null => simp [pollObserve, hb, hg] at h
      | bool b => simp [pollObserve, hb, hg] at h
      | num n => simp [pollObserve, hb, hg] at h
      | arr elems => simp [pollObserve, hb, hg] at h
      | obj fields => simp [pollObserve, hb, hg] at h

/-- A requestError outcome of the polling loop comes from a failed HTTP
status at one of the polled attempts. -/
theorem pollLoop_requestError_inv (env : Env) :
    ∀ n i d, (pollLoop env n i).2 = .error (.requestError d) →
      ∃ j, j < n ∧ httpFailed (env.statusResp (i + j)) = true := by
  intro n
  induction n with
  | zero => intro i d h; simp [pollLoop] at h
  | succ m ih =>
    intro i d h
    cases hobs : pollObserve (env.statusResp i) with
    | httpErr =>
      refine ⟨0, Nat.succ_pos m, ?_⟩
      have := httpFailed_of_pollObserve_httpErr (env.statusResp i) hobs
      simpa using this
    | parseErr => simp [pollLoop, hobs] at h
    | active => simp [pollLoop, hobs] at h
    | failed => simp [pollLoop, hobs] at h
    | other =>
      rw [pollLoop_succ_other env m i hobs] at h
      obtain ⟨j, hj, hh⟩ := ih (i + 1) d h
      refine ⟨j + 1, by omega, ?_⟩
      have e : i + (j + 1) = i + 1 + j := by omega
      rw [e]
      exact hh

/-- A requestError outcome of the start step means the initiation
response had a failed HTTP status: its field-missing error is a
ValueError. -/
theorem startStep_requestError_inv (env : Env) (d : String)
    (h : startStep env = .error (.requestError d)) :
    httpFailed env.startResp = true := by
  cases hb : httpFailed env.startResp with
  | true => rfl
  | false =>
    exfalso
    rcases hh : env.startResp.uploadUrlHeader with _ | u
    · simp [startStep, hb, hh] at h
    · by_cases hu : u = "" <;> simp [startStep, hb, hh, hu] at h

/-- A requestError outcome of the upload step means the upload response
had a failed HTTP status: its missing-URI and wrong-shape errors are
ValueError and AttributeError. -/
theorem uploadStep_requestError_inv (env : Env) (d : String)
    (h : uploadStep env = .error (.requestError d)) :
    httpFailed env.uploadResp = true := by
  cases hb : httpFailed env.uploadResp with
  | true => rfl
  | false =>
    exfalso
    rcases hbody : env.uploadResp.body with _ | b | n | s | elems | fields
    case obj =>
      rcases hfile : (lookupJ fields "file").getD (.obj []) with _ | b2 | n2 | s2 | elems2 | ffields
      case obj =>
        rcases huri : (lookupJ ffields "uri").getD (.str "") with _ | b3 | n3 | s3 | elems3 | ofields
        · simp [uploadStep, hb, hbody, hfile, huri, JSON.truthy] at h
        · cases b3 <;> simp [uploadStep, hb, hbody, hfile, huri, JSON.truthy] at h
        · by_cases hn : n3 = 0 <;>
            simp [uploadStep, hb, hbody, hfile, huri, JSON.truthy, bne_iff_ne, hn] at h
        · by_cases hs3 : s3 = "" <;>
            simp [uploadStep, hb, hbody, hfile, huri, JSON.truthy, bne_iff_ne, hs3] at h
        · cases elems3 <;> simp [uploadStep, hb, hbody, hfile, huri, JSON.truthy] at h
        · cases ofields <;> simp [uploadStep, hb, hbody, hfile, huri, JSON.truthy] at h
      all_goals simp [uploadStep, hb, hbody, hfile] at h
    all_goals simp [uploadStep, hb, hbody] at h

/-- A requestError outcome of the generation step means the generation
response had a failed HTTP status. -/
theorem genStep_requestError_inv (env : Env) (d : String)
    (h : genStep env = .error (.requestError d)) :
    httpFailed env.genResp = true := by
  cases hb : httpFailed env.genResp with
  | true => rfl
  | false => simp [genStep, hb] at h

/-- Claim C1 (code bug): a valid request whose video.save raises leaves
the already-created temporary file on local storage: temp_filepath is
still None when the finally block of main.py lines 154-156 runs, so the
file created by NamedTemporaryFile at line 46 is never unlinked,
contradicting the removed-exactly-once invariant on this exit path. The
request itself ends in the generic 500 branch. -/
theorem upload_video_save_failure_leaks_tempfile :
    (upload_video envSaveFail).status = 500 ∧
    (upload_video envSaveFail).trace.tempCreated = true ∧
    (upload_video envSaveFail).trace.tempExistsAtEnd = true ∧
    (upload_video envSaveFail).trace.unlinkCount = 0 :=
  ⟨rfl, rfl, rfl, rfl⟩

/-- Claim C2 (counterexample): a run whose initiation response is 200
but carries no continuation upload URL is a protocol error with a
missing expected field, yet the handler responds 500 with category
Internal server error, not the claimed Upload or generation failed: the
ValueError of main.py line 70 is not a requests.RequestException, so it
reaches the generic branch of line 151. -/
theorem upload_video_missing_url_counterexample :
    (upload_video envNoUploadUrl).status = 500 ∧
    (upload_video envNoUploadUrl).body.category = "Internal server error" ∧
    ¬ (upload_video envNoUploadUrl).body.category = "Upload or generation failed" :=
  ⟨rfl, rfl, by decide⟩

/-- Claim C2 (amended): every upstream error yields HTTP 500, but the
category splits by exception class. A failed HTTP status raised by
raise_for_status at any of the four call sites, initiation, upload,
any status poll, and generation, yields category Upload or generation
failed; a missing continuation URL, a missing file URI, a FAILED
processing state and a polling timeout raise ValueError or
TimeoutError and yield category Internal server error. Conversely,
category Upload or generation failed arises only when one of the four
calls returned a failed HTTP status. -/
theorem upload_video_error_categories (env : Env)
    (hv : env.hasVideo = true) (hf : env.filename ≠ "") (hs : env.saveOk = true) :
    (httpFailed env.startResp = true →
      (upload_video env).status = 500 ∧
      (upload_video env).body.category = "Upload or generation failed")
  ∧ (httpFailed env.startResp = false → env.startResp.uploadUrlHeader = none →
      (upload_video env).status = 500 ∧
      (upload_video env).body.category = "Internal server error")
  ∧ (∀ u, startStep env = .ok u → httpFailed env.uploadResp = true →
      (upload_video env).status = 500 ∧
      (upload_video env).body.category = "Upload or generation failed")
  ∧ (∀ u, startStep env = .ok u →
      uploadStep env = .error (.otherError "No file URI returned") →
      (upload_video env).status = 500 ∧
      (upload_video env).body.category = "Internal server error")
  ∧ (∀ u uri q d, startStep env = .ok u → uploadStep env = .ok uri →
      pollLoop env max_attempts 0 = (q, .error (.requestError d)) →
      (upload_video env).status = 500 ∧
      (upload_video env).body.category = "Upload or generation failed")
  ∧ (∀ u uri q, startStep env = .ok u → uploadStep env = .ok uri →
      pollLoop env max_attempts 0 = (q, .error (.otherError "File processing failed")) →
      (upload_video env).status = 500 ∧
      (upload_video env).body.category = "Internal server error")
  ∧ (∀ u uri q, startStep env = .ok u → uploadStep env = .ok uri →
      pollLoop env max_attempts 0 = (q, .error (.otherError "File processing timed out")) →
      (upload_video env).status = 500 ∧
      (upload_video env).body.category = "Internal server error")
  ∧ (∀ u uri q, startStep env = .ok u → uploadStep env = .ok uri →
      pollLoop env max_attempts 0 = (q, .ok ()) → httpFailed env.genResp = true →
      (upload_video env).status = 500 ∧
      (upload_video env).body.category = "Upload or generation failed")
  ∧ ((upload_video env).body.category = "Upload or generation failed" →
      httpFailed env.startResp = true ∨ httpFailed env.uploadResp = true ∨
      (∃ i, i < max_attempts ∧ httpFailed (env.statusResp i) = true) ∨
      httpFailed env.genResp = true) := by
  rw [upload_video_validated env hv hf hs]
  refine ⟨?_, ?_, ?_, ?_, ?_, ?_, ?_, ?_, ?_⟩
  · intro h
    have hstart : startStep env = .error (.requestError "start HTTP error") := by
      simp [startStep, h]
    simp [runTry, hstart, assemble, RespBody.category]
  · intro h hn
    have hstart : startStep env = .error (.otherError "No upload URL returned") := by
      simp [startStep, h, hn]
    simp [runTry, hstart, assemble, RespBody.category]
  · intro u h1 h
    have hup : uploadStep env = .error (.requestError "upload HTTP error") := by
      simp [uploadStep, h]
    simp [runTry, h1, hup, assemble, RespBody.category]
  · intro u h1 h2
    simp [runTry, h1, h2, assemble, RespBody.category]
  · intro u uri q d h1 h2 hq
    simp [runTry, h1, h2, hq, assemble, RespBody.category]
  · intro u uri q h1 h2 hq
    simp [runTry, h1, h2, hq, assemble, RespBody.category]
  · intro u uri q h1 h2 hq
    simp [runTry, h1, h2, hq, assemble, RespBody.category]
  · intro u uri q h1 h2 hq hg
    have hgen : genStep env = .error (.requestError "generate HTTP error") := by
      simp [genStep, hg]
    simp [runTry, h1, h2, hq, hgen, assemble, RespBody.category]
  · intro hcat
    rcases hstart : startStep env with e | u
    · have hr : runTry env = (.error e, 0, 1) := by simp [runTry, hstart]
      rw [hr] at hcat
      cases e with
      | requestError d => exact Or.inl (startStep_requestError_inv env d hstart)
      | otherError d => simp [assemble, RespBody.category] at hcat
    · rcases hup : uploadStep env with e | uri
      · have hr : runTry env = (.error e, 0, 2) := by simp [runTry, hstart, hup]
        rw [hr] at hcat
        cases e with
        | requestError d =>
          exact Or.inr (Or.inl (uploadStep_requestError_inv env d hup))
        | otherError d => simp [assemble, RespBody.category] at hcat
      · rcases hpoll : pollLoop env max_attempts 0 with ⟨q, pout⟩
        rcases pout with e | u0
        · have hr : runTry env = (.error e, q, 2 + q) :=
            runTry_poll_error env u uri q e hstart hup hpoll
          rw [hr] at hcat
          cases e with
          | requestError d =>
            obtain ⟨j, hj, hh⟩ :=
              pollLoop_requestError_inv env max_attempts 0 d (by rw [hpoll])
            exact Or.inr (Or.inr (Or.inl ⟨j, hj, by simpa using hh⟩))
          | otherError d => simp [assemble, RespBody.category] at hcat
        · cases u0
          cases hgb : httpFailed env.genResp with
          | true => exact Or.inr (Or.inr (Or.inr rfl))
          | false =>
            have hr : runTry env = (.ok (parseGenerated env.genResp.body), q, 3 + q) :=
              runTry_gen_ok env u uri q hstart hup hpoll hgb
            rw [hr] at hcat
            simp [assemble, RespBody.category] at hcat

/-- Claim C2 witness: with a 503 initiation response the handler
responds 500 with category Upload or generation failed. -/
theorem upload_video_error_categories_witness :
    (upload_video envStartHttpError).status = 500 ∧
    (upload_video envStartHttpError).body.category = "Upload or generation failed" :=
  (upload_video_error_categories envStartHttpError rfl (by decide) rfl).1 (by decide)

/-- Claim C3: when the start and upload steps succeed and every one of
the 60 status polls observes a state that is neither ACTIVE nor FAILED,
the handler issues exactly 60 status queries, then responds 500 with
the timeout error; and conversely a timeout outcome of the polling loop
implies that all 60 attempts were made and none of them observed ACTIVE
or FAILED. -/
theorem upload_video_poll_timeout (env : Env)
    (hv : env.hasVideo = true) (hf : env.filename ≠ "") (hs : env.saveOk = true)
    (u uri : String)
    (h1 : startStep env = .ok u) (h2 : uploadStep env = .ok uri) :
    ((∀ i, i < max_attempts → pollObserve (env.statusResp i) = .other) →
      (upload_video env).trace.statusQueries = 60 ∧
      (upload_video env).status = 500 ∧
      (upload_video env).body = .errDetail "Internal server error" "File processing timed out")
  ∧ ((pollLoop env max_attempts 0).2 = .error (.otherError "File processing timed out") →
      (pollLoop env max_attempts 0).1 = 60 ∧
      ∀ i, i < max_attempts →
        pollObserve (env.statusResp i) ≠ .active ∧
        pollObserve (env.statusResp i) ≠ .failed) := by
  constructor
  · intro hall
    have hp : pollLoop env max_attempts 0 =
        (max_attempts, .error (.otherError "File processing timed out")) :=
      pollLoop_all_other env max_attempts 0 (fun j hj => by simpa using hall j hj)
    rw [upload_video_validated env hv hf hs,
      runTry_poll_error env u uri max_attempts _ h1 h2 hp]
    exact ⟨rfl, rfl, rfl⟩
  · intro hp
    obtain ⟨hq, hrest⟩ := pollLoop_timeout_inv env max_attempts 0 hp
    refine ⟨hq, fun i hi => ?_⟩
    have hoi : pollObserve (env.statusResp i) = .other := by
      simpa using hrest i hi
    constructor <;> simp [hoi]

/-- Claim C3 witness: a run in which every poll reports PROCESSING
issues exactly 60 status queries and ends 500 with the timeout error. -/
theorem upload_video_poll_timeout_witness :
    (upload_video envPollTimeout).trace.statusQueries = 60 ∧
    (upload_video envPollTimeout).status = 500 ∧
    (upload_video envPollTimeout).body =
      .errDetail "Internal server error" "File processing timed out" :=
  (upload_video_poll_timeout envPollTimeout rfl (by decide) rfl "X" "files/abc123"
    rfl rfl).1 (fun _i _hi => rfl)

/-- Claim C4: when the start and upload steps succeed, the polls at the
0-based offsets before k all observe a continuing state and the poll at
offset k observes FAILED (so FAILED arrives at the 1-based attempt
k + 1 with k + 1 at most 60), the handler issues exactly k + 1 status
queries, so no query follows the FAILED attempt, and responds 500. -/
theorem upload_video_poll_failed_stops (env : Env) (k : Nat)
    (hv : env.hasVideo = true) (hf : env.filename ≠ "") (hs : env.saveOk = true)
    (u uri : String)
    (h1 : startStep env = .ok u) (h2 : uploadStep env = .ok uri)
    (hk : k < max_attempts)
    (hfail : pollObserve (env.statusResp k) = .failed)
    (hbefore : ∀ j, j < k → pollObserve (env.statusResp j) = .other) :
    (upload_video env).trace.statusQueries = k + 1 ∧
    (upload_video env).status = 500 := by
  have hp : pollLoop env max_attempts 0 =
      (k + 1, .error (.otherError "File processing failed")) :=
    pollLoop_first_failed env k max_attempts 0 hk (by simpa using hfail)
      (fun j hj => by simpa using hbefore j hj)
  rw [upload_video_validated env hv hf hs,
    runTry_poll_error env u uri (k + 1) _ h1 h2 hp]
  exact ⟨rfl, rfl⟩

/-- Claim C4 witness: a run whose first poll reports FAILED issues
exactly one status query and responds 500. -/
theorem upload_video_poll_failed_stops_witness :
    (upload_video envPollFailed).trace.statusQueries = 1 ∧
    (upload_video envPollFailed).status = 500 :=
  upload_video_poll_failed_stops envPollFailed 0 rfl (by decide) rfl "X" "files/abc123"
    rfl rfl (by decide) rfl (fun j hj => absurd hj (Nat.not_lt_zero j))

/-- Claim C5: a request with no video part, or with an empty-string
filename, is answered 400 with a JSON body carrying an error key. -/
theorem upload_video_rejects_invalid (env : Env)
    (h : env.hasVideo = false ∨ env.filename = "") :
    (upload_video env).status = 400 ∧
    (upload_video env).body.hasErrorKey = true := by
  rcases h with h | h
  · simp [upload_video, h, RespBody.hasErrorKey]
  · cases hhv : env.hasVideo
    · simp [upload_video, hhv, RespBody.hasErrorKey]
    · simp [upload_video, hhv, h, RespBody.hasErrorKey]

/-- Claim C5 witness: the request with no video part gets 400 with an
error key. -/
theorem upload_video_rejects_invalid_witness :
    (upload_video envNoVideo).status = 400 ∧
    (upload_video envNoVideo).body.hasErrorKey = true :=
  upload_video_rejects_invalid envNoVideo (Or.inl rfl)

/-- Claim C6: when the full sequence reaches a successful generation
call and the descent into the response finds no text, which covers an
empty candidates list, empty parts, and parts without text, the handler
responds 200 and the documentation text is the fixed placeholder. -/
theorem upload_video_no_content_placeholder (env : Env)
    (hv : env.hasVideo = true) (hf : env.filename ≠ "") (hs : env.saveOk = true)
    (u uri : String) (q : Nat)
    (h1 : startStep env = .ok u) (h2 : uploadStep env = .ok uri)
    (hp : pollLoop env max_attempts 0 = (q, .ok ()))
    (hg : httpFailed env.genResp = false)
    (he : extractText env.genResp.body = .ok "") :
    (upload_video env).status = 200 ∧
    (upload_video env).body = .doc "No content generated" := by
  rw [upload_video_validated env hv hf hs, runTry_gen_ok env u uri q h1 h2 hp hg]
  simp [assemble, parseGenerated, he]

/-- Claim C6 witness: a generation response with an empty candidates
list yields 200 with the placeholder text. -/
theorem upload_video_no_content_placeholder_witness :
    (upload_video envGenEmpty).status = 200 ∧
    (upload_video envGenEmpty).body = .doc "No content generated" :=
  upload_video_no_content_placeholder envGenEmpty rfl (by decide) rfl "X" "files/abc123"
    1 rfl rfl rfl rfl rfl

/-- Claim C7: when the full sequence reaches a successful generation
call and the descent into the response raises, the exception is caught,
the documentation text is the fixed failure string, and the request
still responds 200: a generation-parsing error never becomes a request
failure. -/
theorem upload_video_parse_error_nonfatal (env : Env)
    (hv : env.hasVideo = true) (hf : env.filename ≠ "") (hs : env.saveOk = true)
    (u uri : String) (q : Nat) (e : PyErr)
    (h1 : startStep env = .ok u) (h2 : uploadStep env = .ok uri)
    (hp : pollLoop env max_attempts 0 = (q, .ok ()))
    (hg : httpFailed env.genResp = false)
    (he : extractText env.genResp.body = .error e) :
    (upload_video env).status = 200 ∧
    (upload_video env).body = .doc "Failed to parse generated content" := by
  rw [upload_video_validated env hv hf hs, runTry_gen_ok env u uri q h1 h2 hp hg]
  simp [assemble, parseGenerated, he]

/-- Claim C7 witness: a generation body that is a JSON array makes the
dict descent raise; the handler still responds 200 with the fixed
failure string. -/
theorem upload_video_parse_error_nonfatal_witness :
    (upload_video envGenBad).status = 200 ∧
    (upload_video envGenBad).body = .doc "Failed to parse generated content" :=
  upload_video_parse_error_nonfatal envGenBad rfl (by decide) rfl "X" "files/abc123"
    1 (.otherError "AttributeError") rfl rfl rfl rfl rfl

/-- Claim C8: the worked example run, a 10-byte file a.txt, initiation
with continuation URL X, upload response with uri files/abc123, first
poll ACTIVE, one candidate with the single part text # Doc, responds
200 with generated_documentation # Doc after one status query, and the
temporary file is gone. -/
theorem upload_video_example_run :
    (upload_video envC8).status = 200 ∧
    (upload_video envC8).body = .doc "# Doc" ∧
    (upload_video envC8).trace.statusQueries = 1 ∧
    (upload_video envC8).trace.tempExistsAtEnd = false ∧
    (upload_video envC8).trace.unlinkCount = 1 :=
  ⟨rfl, rfl, rfl, rfl, rfl⟩

/-- Claim C9: get_mime_type is total over the filetype.guess outcome:
when no signature is detected it returns the default MIME type, and
otherwise the detected MIME type. -/
theorem get_mime_type_total_default :
    get_mime_type none = "application/octet-stream" ∧
    ∀ mime, get_mime_type (some mime) = mime :=
  ⟨rfl, fun _ => rfl⟩

/-- Claim C10: a request rejected with 400, for a missing video part or
an empty filename, leaves no effect: no temporary file was created,
nothing was unlinked, and no outbound network call and no status query
was issued. -/
theorem upload_video_reject_no_side_effects (env : Env)
    (h : env.hasVideo = false ∨ env.filename = "") :
    (upload_video env).status = 400 ∧
    (upload_video env).trace.tempCreated = false ∧
    (upload_video env).trace.networkCalls = 0 ∧
    (upload_video env).trace.statusQueries = 0 ∧
    (upload_video env).trace.unlinkCount = 0 := by
  rcases h with h | h
  · simp [upload_video, h, emptyTrace]
  · cases hhv : env.hasVideo
    · simp [upload_video, hhv, emptyTrace]
    · simp [upload_video, hhv, h, emptyTrace]

/-- Claim C10 witness: the request with an empty filename gets 400 and
leaves no effect. -/
theorem upload_video_reject_no_side_effects_witness :
    (upload_video envEmptyFilename).status = 400 ∧
    (upload_video envEmptyFilename).trace.tempCreated = false ∧
    (upload_video envEmptyFilename).trace.networkCalls = 0 ∧
    (upload_video envEmptyFilename).trace.statusQueries = 0 ∧
    (upload_video envEmptyFilename).trace.unlinkCount = 0 :=
  upload_video_reject_no_side_effects envEmptyFilename (Or.inr rfl)
